import Mathlib

/-!
Verification of the server-side mutation handlers in `src/app/lib/actions.ts`
(user and invoice CRUD plus credential sign-in), as a shallow embedding.

Modelling conventions:
* The SQL store is an explicit list of rows; each handler returns the new
  store, the list of revalidated route paths, and an `Outcome`.
* `redirect(path)` is a control-flow-terminating effect: it replaces any
  pending return value or pending exception (this is what a Next.js
  redirect thrown from a `finally` block does), modelled as
  `Outcome.redirected path`.
* A thrown `Error(msg)` that escapes the handler is `Outcome.threw msg`.
* Store calls that can fail at the persistence layer take a `Bool` flag
  (`insertOk`, `updateOk`, `deleteOk`); `false` means the awaited SQL call
  rejects and control moves to the enclosing `catch`.
* `bcrypt.hash` and the zod email grammar are abstract parameters
  (`hash : String → String`, `emailOk : String → Bool`): the code delegates
  both wholesale, and no claim depends on their internals.
* JavaScript numbers are modelled as exact rationals `ℚ`; on every input
  appearing in a claim the IEEE double computation agrees with the exact
  one (e.g. `12.34 * 100 = 1234` exactly in both).
-/

namespace Actions

/-- A row of the `users(id, name, email, password)` table. -/
structure UserRow where
  id : String
  name : String
  email : String
  password : String
deriving DecidableEq, Repr

/-- A row of the `invoices(id, customer_id, amount, status, date)` table. -/
structure InvoiceRow where
  id : String
  customerId : String
  amount : ℚ
  status : String
  date : String
deriving DecidableEq, Repr

/-- The fields read from the user form via `formData.get` (null becomes `none`). -/
structure UserForm where
  name : Option String
  email : Option String
  password : Option String
deriving DecidableEq, Repr

/-- The fields read from the invoice form via `formData.get`. -/
structure InvoiceForm where
  customerId : Option String
  amount : Option String
  status : Option String
deriving DecidableEq, Repr

/-- `validatedFields.error.flatten().fieldErrors` for the user schema:
per-field message lists, a field present exactly when it has issues. -/
structure UserFieldErrors where
  name : Option (List String)
  email : Option (List String)
  password : Option (List String)
deriving DecidableEq, Repr

/-- Flattened field errors for the invoice schema. -/
structure InvoiceFieldErrors where
  customerId : Option (List String)
  amount : Option (List String)
  status : Option (List String)
deriving DecidableEq, Repr

/-- `validatedFields.data` for `CreateUser` and `UpdateUser` (id omitted). -/
structure UserData where
  name : String
  email : String
  password : String
deriving DecidableEq, Repr

/-- `validatedFields.data` for `CreateInvoice` and `UpdateInvoice`
(id and date omitted); `amount` is already coerced to a number. -/
structure InvoiceData where
  customerId : String
  amount : ℚ
  status : String
deriving DecidableEq, Repr

/-- Result of a zod `safeParse`: either the typed data or the flattened
per-field error map. -/
inductive ParseResult (ε α : Type) where
  | ok (data : α)
  | error (err : ε)
deriving DecidableEq, Repr

/-- The `StateUser` result shape `{ errors?, message? }`. -/
structure StateUser where
  errors : Option UserFieldErrors
  message : Option String
deriving DecidableEq, Repr

/-- The invoice `State` result shape `{ errors?, message? }`. -/
structure StateInvoice where
  errors : Option InvoiceFieldErrors
  message : Option String
deriving DecidableEq, Repr

/-- How a handler invocation terminates, as observed by the caller. -/
inductive Outcome (α : Type) where
  | returned (v : α)
  | redirected (path : String)
  | threw (msg : String)
deriving DecidableEq, Repr

/-- Full observable effect of a user handler: resulting `users` table,
revalidated routes, and termination. -/
structure UserResult where
  store : List UserRow
  revalidated : List String
  outcome : Outcome StateUser
deriving DecidableEq, Repr

/-- Full observable effect of an invoice handler. -/
structure InvoiceResult where
  store : List InvoiceRow
  revalidated : List String
  outcome : Outcome StateInvoice
deriving DecidableEq, Repr

/-- Issues for `z.string().min(5, ...).nonempty(...)` applied to a
`formData.get` result: a null value is a type error, a string collects
every failed check. -/
def nameIssues (v : Option String) : List String :=
  match v with
  | none => ["Expected string, received null"]
  | some s =>
      (if s.length < 5 then ["Name must be at least 5 characters long"] else [])
        ++ (if s.length < 1 then ["Name cannot be empty"] else [])

/-- Issues for `z.string().email(...).nonempty(...)`; the email grammar
itself is the abstract parameter `emailOk`. -/
def emailIssues (emailOk : String → Bool) (v : Option String) : List String :=
  match v with
  | none => ["Expected string, received null"]
  | some s =>
      (if emailOk s then [] else ["Invalid email address"])
        ++ (if s.length < 1 then ["Email cannot be empty"] else [])

/-- Issues for `z.string().min(6, ...).nonempty(...)`. -/
def passwordIssues (v : Option String) : List String :=
  match v with
  | none => ["Expected string, received null"]
  | some s =>
      (if s.length < 6 then ["Password must be at least 6 characters long"] else [])
        ++ (if s.length < 1 then ["Password cannot be empty"] else [])

/-- A field of the flattened error map: present exactly when the issue
list is nonempty. -/
def optErrors (l : List String) : Option (List String) :=
  if l = [] then none else some l

/-- `CreateUser.safeParse` = `UpdateUser.safeParse` (both are
`userSchema.omit(id)`): success with the typed data when every field is
clean, otherwise the flattened per-field error map. -/
def validateUserForm (emailOk : String → Bool) (f : UserForm) :
    ParseResult UserFieldErrors UserData :=
  match optErrors (nameIssues f.name), optErrors (emailIssues emailOk f.email),
      optErrors (passwordIssues f.password) with
  | none, none, none =>
      ParseResult.ok ⟨f.name.getD "", f.email.getD "", f.password.getD ""⟩
  | n, e, p => ParseResult.error ⟨n, e, p⟩

/-- `isEmailUnique`: `SELECT COUNT(*) FROM users WHERE email = ...`.
Despite its name it returns the count itself. -/
def isEmailUnique (store : List UserRow) (email : String) : Nat :=
  (store.filter (fun u => u.email == email)).length

/-- `createUser`: validate, check email uniqueness, hash, insert; the
uniqueness throw and any insert failure are caught and rethrown as a
generic creation error; on success revalidate and redirect. -/
def createUser (emailOk : String → Bool) (hash : String → String)
    (insertOk : Bool) (newId : String) (store : List UserRow)
    (form : UserForm) : UserResult :=
  match validateUserForm emailOk form with
  | ParseResult.error errs =>
      { store := store, revalidated := [],
        outcome := Outcome.returned
          ⟨some errs, some "Missing Fields. Failed to Create User."⟩ }
  | ParseResult.ok data =>
      if isEmailUnique store data.email > 0 then
        { store := store, revalidated := [],
          outcome := Outcome.threw "Failed to create user." }
      else if insertOk then
        { store := store ++ [⟨newId, data.name, data.email, hash data.password⟩],
          revalidated := ["/dashboard/users"],
          outcome := Outcome.redirected "/dashboard/users" }
      else
        { store := store, revalidated := [],
          outcome := Outcome.threw "Failed to create user." }

/-- The try/catch body of `updateUser` (everything before the `finally`):
the resulting store together with the pending termination, which is either
a normal completion or the rethrown generic update error. -/
def updateUserBody (hash : String → String)
    (updateOk : Bool) (id : String) (store : List UserRow)
    (data : UserData) : List UserRow × Outcome Unit :=
  match store.find? (fun u => u.id == id) with
  | none => (store, Outcome.threw "Failed to update user.")
  | some existing =>
      if data.email ≠ existing.email ∧ isEmailUnique store data.email = 0 then
        (store, Outcome.threw "Failed to update user.")
      else if updateOk then
        (store.map (fun u =>
          if u.id == id then
            { u with name := data.name, email := data.email,
                     password := hash data.password }
          else u), Outcome.returned ())
      else (store, Outcome.threw "Failed to update user.")

/-- `updateUser`: validate (returning early on failure), then run the
try/catch body; the `finally` block revalidates and redirects, and the
redirect replaces whatever termination the body was about to produce. -/
def updateUser (emailOk : String → Bool) (hash : String → String)
    (updateOk : Bool) (id : String) (store : List UserRow)
    (form : UserForm) : UserResult :=
  match validateUserForm emailOk form with
  | ParseResult.error errs =>
      { store := store, revalidated := [],
        outcome := Outcome.returned
          ⟨some errs, some "Missing Fields. Failed to Update Invoice."⟩ }
  | ParseResult.ok data =>
      { store := (updateUserBody hash updateOk id store data).1,
        revalidated := ["/dashboard/users"],
        outcome := Outcome.redirected "/dashboard/users" }

/-- `deleteUser`: unconditional `DELETE ... WHERE id`, revalidate, return a
confirmation; a store failure is rethrown as a generic deletion error. -/
def deleteUser (deleteOk : Bool) (id : String) (store : List UserRow) :
    UserResult :=
  if deleteOk then
    { store := store.filter (fun u => !(u.id == id)),
      revalidated := ["/dashboard/users"],
      outcome := Outcome.returned ⟨none, some "Deleted User."⟩ }
  else
    { store := store, revalidated := [],
      outcome := Outcome.threw "Failed to delete user." }

/-- Reads a list of characters as a base-10 natural number; `none` if any
character is not a digit. The empty list reads as `0`, matching the
JavaScript coercion `Number("") = 0`. -/
def digitsToNat (cs : List Char) : Option Nat :=
  cs.foldl
    (fun acc c =>
      match acc with
      | none => none
      | some n => if c.isDigit then some (10 * n + (c.toNat - 48)) else none)
    (some 0)

/-- Splits a character list at the first decimal point: the characters
before it, and (when a point is present) the characters after it. -/
def splitAtDot : List Char → List Char × Option (List Char)
  | [] => ([], none)
  | c :: cs =>
      if c = '.' then ([], some cs)
      else
        let r := splitAtDot cs
        (c :: r.1, r.2)

/-- `Number(s)` for the plain decimal literals this form accepts: an
integer part, optionally a dot and a fraction part (a second dot or any
non-digit fails), as an exact rational; `none` models `NaN`. -/
def parseDecimal (s : String) : Option ℚ :=
  match splitAtDot s.data with
  | (i, none) => (digitsToNat i).map (fun n => (n : ℚ))
  | (i, some f) =>
      match digitsToNat i, digitsToNat f with
      | some n, some d =>
          if i.isEmpty ∧ f.isEmpty then none
          else some ((n : ℚ) + (d : ℚ) / (10 : ℚ) ^ f.length)
      | _, _ => none

/-- `z.coerce.number()` applied to a `formData.get` result: `Number(null)`
is `0`; a string parses as a decimal literal or is `NaN`. -/
def coerceNumber (v : Option String) : Option ℚ :=
  match v with
  | none => some 0
  | some s => parseDecimal s

/-- Issues for `z.string({ invalid_type_error: ... })` on `customerId`:
only a null value fails. -/
def customerIdIssues (v : Option String) : List String :=
  match v with
  | none => ["Please select a customer."]
  | some _ => []

/-- Issues for `z.coerce.number().gt(0, ...)` on `amount`: `NaN` is a type
error, a number must be strictly positive. -/
def amountIssues (v : Option String) : List String :=
  match coerceNumber v with
  | none => ["Expected number, received nan"]
  | some q => if q > 0 then [] else ["Please enter an amount greater than $0."]

/-- Issues for the status enum: a null value is a type error, a string
must be exactly `pending` or `paid`. -/
def statusIssues (v : Option String) : List String :=
  match v with
  | none => ["Please select an invoice status."]
  | some s =>
      if s = "pending" ∨ s = "paid" then []
      else ["Invalid enum value. Expected pending or paid"]

/-- `CreateInvoice.safeParse` = `UpdateInvoice.safeParse` (both are
`FormSchema.omit(id, date)`). -/
def validateInvoiceForm (f : InvoiceForm) :
    ParseResult InvoiceFieldErrors InvoiceData :=
  match optErrors (customerIdIssues f.customerId), optErrors (amountIssues f.amount),
      optErrors (statusIssues f.status) with
  | none, none, none =>
      ParseResult.ok ⟨f.customerId.getD "", (coerceNumber f.amount).getD 0,
        f.status.getD ""⟩
  | c, a, s => ParseResult.error ⟨c, a, s⟩

/-- `createInvoice`: validate, convert `amount * 100` to minor units with
no rounding, insert with a server-assigned date; an insert failure is
caught and returned as a message; on success revalidate and redirect. -/
def createInvoice (insertOk : Bool) (newId : String) (today : String)
    (store : List InvoiceRow) (form : InvoiceForm) : InvoiceResult :=
  match validateInvoiceForm form with
  | ParseResult.error errs =>
      { store := store, revalidated := [],
        outcome := Outcome.returned
          ⟨some errs, some "Missing Fields. Failed to Create Invoice."⟩ }
  | ParseResult.ok data =>
      let amountInCents := data.amount * 100
      if insertOk then
        { store := store ++ [⟨newId, data.customerId, amountInCents,
            data.status, today⟩],
          revalidated := ["/dashboard/invoices"],
          outcome := Outcome.redirected "/dashboard/invoices" }
      else
        { store := store, revalidated := [],
          outcome := Outcome.returned
            ⟨none, some "Database Error: Failed to Create Invoice."⟩ }

/-- `updateInvoice`: validate, convert `amount * 100`, update matching
rows by id with no existence precheck (the date column is not touched);
a store failure is caught and returned as a message. -/
def updateInvoice (updateOk : Bool) (id : String)
    (store : List InvoiceRow) (form : InvoiceForm) : InvoiceResult :=
  match validateInvoiceForm form with
  | ParseResult.error errs =>
      { store := store, revalidated := [],
        outcome := Outcome.returned
          ⟨some errs, some "Missing Fields. Failed to Update Invoice."⟩ }
  | ParseResult.ok data =>
      let amountInCents := data.amount * 100
      if updateOk then
        { store := store.map (fun r =>
            if r.id == id then
              { r with customerId := data.customerId,
                       amount := amountInCents, status := data.status }
            else r),
          revalidated := ["/dashboard/invoices"],
          outcome := Outcome.redirected "/dashboard/invoices" }
      else
        { store := store, revalidated := [],
          outcome := Outcome.returned
            ⟨none, some "Database Error: Failed to Update Invoice."⟩ }

/-- `deleteInvoice`: unconditional delete by id, revalidate, return a
confirmation; a store failure is caught and returned as a message. -/
def deleteInvoice (deleteOk : Bool) (id : String)
    (store : List InvoiceRow) : InvoiceResult :=
  if deleteOk then
    { store := store.filter (fun r => !(r.id == id)),
      revalidated := ["/dashboard/invoices"],
      outcome := Outcome.returned ⟨none, some "Deleted Invoice."⟩ }
  else
    { store := store, revalidated := [],
      outcome := Outcome.returned
        ⟨none, some "Database Error: Failed to Delete Invoice."⟩ }

/-- What the external `signIn` call can throw: a provider `AuthError`
carrying its `type` discriminator, or any other error (kept opaque as a
payload string so a rethrow can be compared with the original). -/
inductive SignInError where
  | authError (type : String)
  | other (err : String)
deriving DecidableEq, Repr

/-- How the awaited `signIn` call behaves: it either completes or throws
a `SignInError`. -/
inductive SignInResult where
  | completed
  | failed (e : SignInError)
deriving DecidableEq, Repr

/-- `authenticate`: await `signIn`; classify a thrown `AuthError` by its
`type` into two fixed messages; rethrow anything else unchanged; return
`undefined` (no message) when `signIn` completes. -/
def authenticate (signInResult : SignInResult) : Outcome (Option String) :=
  match signInResult with
  | SignInResult.completed => Outcome.returned none
  | SignInResult.failed (SignInError.authError t) =>
      if t = "CredentialsSignin" then Outcome.returned (some "Invalid credentials.")
      else Outcome.returned (some "Something went wrong.")
  | SignInResult.failed (SignInError.other e) => Outcome.threw e

/-- Number of characters after the decimal point of a literal, used to
state the claim about inputs with more than two decimal places. -/
def decimalPlaces (s : String) : Nat :=
  match splitAtDot s.data with
  | (_, some f) => f.length
  | (_, none) => 0

/-! Helper lemmas about the validation plumbing, shared by the claim
theorems below. -/

theorem optErrors_eq_none_iff {l : List String} : optErrors l = none ↔ l = [] := by
  unfold optErrors
  split <;> simp_all

theorem optErrors_isSome_iff {l : List String} : (optErrors l).isSome ↔ l ≠ [] := by
  unfold optErrors
  split <;> simp_all

theorem optErrors_of_ne {l : List String} (h : l ≠ []) : optErrors l = some l := by
  unfold optErrors
  simp [h]

theorem validateUserForm_eq_error (emailOk : String → Bool) (f : UserForm)
    (h : ¬(nameIssues f.name = [] ∧ emailIssues emailOk f.email = []
      ∧ passwordIssues f.password = [])) :
    validateUserForm emailOk f = ParseResult.error
      ⟨optErrors (nameIssues f.name), optErrors (emailIssues emailOk f.email),
        optErrors (passwordIssues f.password)⟩ := by
  rcases h1 : optErrors (nameIssues f.name) with _ | l1 <;>
    rcases h2 : optErrors (emailIssues emailOk f.email) with _ | l2 <;>
    rcases h3 : optErrors (passwordIssues f.password) with _ | l3 <;>
    simp only [validateUserForm, h1, h2, h3]
  exact absurd ⟨optErrors_eq_none_iff.mp h1, optErrors_eq_none_iff.mp h2,
    optErrors_eq_none_iff.mp h3⟩ h

theorem validateInvoiceForm_eq_error (f : InvoiceForm)
    (h : ¬(customerIdIssues f.customerId = [] ∧ amountIssues f.amount = []
      ∧ statusIssues f.status = [])) :
    validateInvoiceForm f = ParseResult.error
      ⟨optErrors (customerIdIssues f.customerId), optErrors (amountIssues f.amount),
        optErrors (statusIssues f.status)⟩ := by
  rcases h1 : optErrors (customerIdIssues f.customerId) with _ | l1 <;>
    rcases h2 : optErrors (amountIssues f.amount) with _ | l2 <;>
    rcases h3 : optErrors (statusIssues f.status) with _ | l3 <;>
    simp only [validateInvoiceForm, h1, h2, h3]
  exact absurd ⟨optErrors_eq_none_iff.mp h1, optErrors_eq_none_iff.mp h2,
    optErrors_eq_none_iff.mp h3⟩ h

/-- C1: updating a user whose id matches no row does NOT surface the
not-found error: the `finally` block redirects to the listing page, the
store is untouched, and the caller observes the redirect as if the update
succeeded. This evaluates the code at the failing input of the claim
(valid form, empty users table). -/
theorem updateUser_nonexistent_id_still_redirects :
    updateUser (fun _ => true) (fun p => p ++ "#hashed") true "u1" []
        ⟨some "Alice Smith", some "alice@example.com", some "secret123"⟩
      = ⟨[], ["/dashboard/users"], Outcome.redirected "/dashboard/users"⟩
    ∧ (updateUser (fun _ => true) (fun p => p ++ "#hashed") true "u1" []
        ⟨some "Alice Smith", some "alice@example.com", some "secret123"⟩).outcome
      ≠ Outcome.threw "Failed to update user." := by
  constructor
  · decide
  · decide

/-- C3: creating a user whose email already occurs in the store (pre-write
count positive) leaves the store unchanged, revalidates nothing, and the
caller observes a thrown failure instead of a success redirect. -/
theorem createUser_duplicate_email_no_insert (emailOk : String → Bool)
    (hash : String → String) (insertOk : Bool) (newId : String)
    (store : List UserRow) (form : UserForm) (data : UserData)
    (hv : validateUserForm emailOk form = ParseResult.ok data)
    (hdup : 0 < isEmailUnique store data.email) :
    createUser emailOk hash insertOk newId store form
      = ⟨store, [], Outcome.threw "Failed to create user."⟩ := by
  unfold createUser
  rw [hv]
  simp [hdup]

/-- Witness for C3: a concrete store already holding the email. -/
theorem createUser_duplicate_email_no_insert_witness :
    createUser (fun _ => true) (fun p => p) true "u2"
        [⟨"u1", "Bob Jones", "alice@example.com", "x"⟩]
        ⟨some "Alice Smith", some "alice@example.com", some "secret123"⟩
      = ⟨[⟨"u1", "Bob Jones", "alice@example.com", "x"⟩], [],
          Outcome.threw "Failed to create user."⟩ :=
  createUser_duplicate_email_no_insert (fun _ => true) (fun p => p) true "u2"
    [⟨"u1", "Bob Jones", "alice@example.com", "x"⟩]
    ⟨some "Alice Smith", some "alice@example.com", some "secret123"⟩
    ⟨"Alice Smith", "alice@example.com", "secret123"⟩ (by decide) (by decide)

/-- C4: a provider error typed `CredentialsSignin` yields exactly
"Invalid credentials.", any other provider-typed error yields exactly
"Something went wrong.", a non-provider error is re-raised unchanged, and
a completed sign-in returns no message. -/
theorem authenticate_error_classification :
    authenticate (SignInResult.failed (SignInError.authError "CredentialsSignin"))
      = Outcome.returned (some "Invalid credentials.")
    ∧ (∀ t : String, t ≠ "CredentialsSignin" →
        authenticate (SignInResult.failed (SignInError.authError t))
          = Outcome.returned (some "Something went wrong."))
    ∧ (∀ e : String, authenticate (SignInResult.failed (SignInError.other e))
        = Outcome.threw e) := by
  refine ⟨rfl, fun t ht => ?_, fun e => rfl⟩
  unfold authenticate
  simp [ht]

/-- Witness for C4: the generic-message branch at a concrete
non-credentials provider error type. -/
theorem authenticate_error_classification_witness :
    authenticate (SignInResult.failed (SignInError.authError "AccessDenied"))
      = Outcome.returned (some "Something went wrong.") :=
  authenticate_error_classification.2.1 "AccessDenied" (by decide)

/-- C5: deleting a user or an invoice by an id matching no row (with the
store call succeeding) still returns the confirmation message, leaving the
store unchanged. -/
theorem delete_missing_id_returns_confirmation (idU idI : String)
    (ustore : List UserRow) (istore : List InvoiceRow)
    (hU : ∀ u ∈ ustore, u.id ≠ idU) (hI : ∀ r ∈ istore, r.id ≠ idI) :
    deleteUser true idU ustore
      = ⟨ustore, ["/dashboard/users"], Outcome.returned ⟨none, some "Deleted User."⟩⟩
    ∧ deleteInvoice true idI istore
      = ⟨istore, ["/dashboard/invoices"],
          Outcome.returned ⟨none, some "Deleted Invoice."⟩⟩ := by
  constructor
  · unfold deleteUser
    simp only [if_pos trivial]
    have : ustore.filter (fun u => !(u.id == idU)) = ustore :=
      List.filter_eq_self.mpr (fun u hu => by simpa using hU u hu)
    rw [this]
  · unfold deleteInvoice
    simp only [if_pos trivial]
    have : istore.filter (fun r => !(r.id == idI)) = istore :=
      List.filter_eq_self.mpr (fun r hr => by simpa using hI r hr)
    rw [this]

/-- Witness for C5: concrete one-row stores and an absent id. -/
theorem delete_missing_id_returns_confirmation_witness :
    deleteUser true "zz" [⟨"u1", "Bob Jones", "b@c.com", "x"⟩]
      = ⟨[⟨"u1", "Bob Jones", "b@c.com", "x"⟩], ["/dashboard/users"],
          Outcome.returned ⟨none, some "Deleted User."⟩⟩
    ∧ deleteInvoice true "zz" [⟨"i1", "c1", 5, "paid", "2024-01-01"⟩]
      = ⟨[⟨"i1", "c1", 5, "paid", "2024-01-01"⟩], ["/dashboard/invoices"],
          Outcome.returned ⟨none, some "Deleted Invoice."⟩⟩ :=
  delete_missing_id_returns_confirmation "zz" "zz"
    [⟨"u1", "Bob Jones", "b@c.com", "x"⟩] [⟨"i1", "c1", 5, "paid", "2024-01-01"⟩]
    (by decide) (by decide)

/-- C8: whenever the update-user input fails validation, the handler
returns the literal message "Missing Fields. Failed to Update Invoice."
(naming the wrong entity), together with the field errors, touching
neither the store nor the cache. -/
theorem updateUser_invalid_input_message_names_invoice
    (emailOk : String → Bool) (hash : String → String) (updateOk : Bool)
    (id : String) (store : List UserRow) (form : UserForm)
    (errs : UserFieldErrors)
    (hv : validateUserForm emailOk form = ParseResult.error errs) :
    updateUser emailOk hash updateOk id store form
      = ⟨store, [], Outcome.returned
          ⟨some errs, some "Missing Fields. Failed to Update Invoice."⟩⟩ := by
  unfold updateUser
  rw [hv]

/-- Witness for C8: a concrete form with a too-short name. -/
theorem updateUser_invalid_input_message_names_invoice_witness :
    updateUser (fun _ => true) (fun p => p) true "u1" []
        ⟨some "ab", some "a@b.com", some "secret123"⟩
      = ⟨[], [], Outcome.returned
          ⟨some ⟨some ["Name must be at least 5 characters long"], none, none⟩,
            some "Missing Fields. Failed to Update Invoice."⟩⟩ :=
  updateUser_invalid_input_message_names_invoice (fun _ => true) (fun p => p)
    true "u1" [] ⟨some "ab", some "a@b.com", some "secret123"⟩
    ⟨some ["Name must be at least 5 characters long"], none, none⟩ (by decide)

/-- C10: a sign-in that completes yields no message (`undefined`), and a
defined string result can only arise from a provider-typed error. -/
theorem authenticate_success_returns_no_message :
    authenticate SignInResult.completed = Outcome.returned none
    ∧ (∀ (r : SignInResult) (s : String),
        authenticate r = Outcome.returned (some s) →
        ∃ t, r = SignInResult.failed (SignInError.authError t)) := by
  refine ⟨rfl, fun r s h => ?_⟩
  match r with
  | SignInResult.completed => simp [authenticate] at h
  | SignInResult.failed (SignInError.authError t) => exact ⟨t, rfl⟩
  | SignInResult.failed (SignInError.other e) => simp [authenticate] at h

/-- Witness for C10: a defined message at a concrete call implies a
provider-typed error. -/
theorem authenticate_success_returns_no_message_witness :
    ∃ t, SignInResult.failed (SignInError.authError "CredentialsSignin")
      = SignInResult.failed (SignInError.authError t) :=
  authenticate_success_returns_no_message.2
    (SignInResult.failed (SignInError.authError "CredentialsSignin"))
    "Invalid credentials." (by decide)

/-- C6: whenever any user-form field violates its constraint, validation
fails, the flattened error map has an entry exactly for each violated
field, and both user handlers return that map with their generic message
(all field errors reported in one pass). -/
theorem user_validation_reports_every_violated_field
    (emailOk : String → Bool) (f : UserForm)
    (h : nameIssues f.name ≠ [] ∨ emailIssues emailOk f.email ≠ []
      ∨ passwordIssues f.password ≠ []) :
    ∃ errs : UserFieldErrors,
      validateUserForm emailOk f = ParseResult.error errs
      ∧ (errs.name.isSome ↔ nameIssues f.name ≠ [])
      ∧ (errs.email.isSome ↔ emailIssues emailOk f.email ≠ [])
      ∧ (errs.password.isSome ↔ passwordIssues f.password ≠ [])
      ∧ (∀ (hash : String → String) (insertOk : Bool) (newId : String)
            (store : List UserRow),
          (createUser emailOk hash insertOk newId store f).outcome
            = Outcome.returned
                ⟨some errs, some "Missing Fields. Failed to Create User."⟩)
      ∧ (∀ (hash : String → String) (updateOk : Bool) (id : String)
            (store : List UserRow),
          (updateUser emailOk hash updateOk id store f).outcome
            = Outcome.returned
                ⟨some errs, some "Missing Fields. Failed to Update Invoice."⟩) := by
  have hne : ¬(nameIssues f.name = [] ∧ emailIssues emailOk f.email = []
      ∧ passwordIssues f.password = []) := by tauto
  refine ⟨_, validateUserForm_eq_error emailOk f hne,
    optErrors_isSome_iff, optErrors_isSome_iff, optErrors_isSome_iff, ?_, ?_⟩
  · intro hash insertOk newId store
    unfold createUser
    rw [validateUserForm_eq_error emailOk f hne]
  · intro hash updateOk id store
    unfold updateUser
    rw [validateUserForm_eq_error emailOk f hne]

/-- Witness for C6: the spec's own example input (name "ab", a non-email,
password "123") violates all three fields and each gets an entry. -/
theorem user_validation_reports_every_violated_field_witness :
    ∃ errs : UserFieldErrors,
      validateUserForm (fun s => s == "a@b.com")
          ⟨some "ab", some "not-an-email", some "123"⟩
        = ParseResult.error errs
      ∧ errs.name.isSome ∧ errs.email.isSome ∧ errs.password.isSome := by
  obtain ⟨errs, he, hn, hm, hp, -, -⟩ :=
    user_validation_reports_every_violated_field (fun s => s == "a@b.com")
      ⟨some "ab", some "not-an-email", some "123"⟩ (by decide)
  exact ⟨errs, he, hn.mpr (by decide), hm.mpr (by decide), hp.mpr (by decide)⟩

/-- Invoice validation succeeds with exactly the present customer id, the
coerced positive amount, and a legal status. -/
theorem validateInvoiceForm_ok (f : InvoiceForm) (c st : String) (q : ℚ)
    (hc : f.customerId = some c) (hst : f.status = some st)
    (hq : coerceNumber f.amount = some q) (hqpos : 0 < q)
    (hvalid : st = "pending" ∨ st = "paid") :
    validateInvoiceForm f = ParseResult.ok ⟨c, q, st⟩ := by
  have h1 : customerIdIssues f.customerId = [] := by rw [hc]; rfl
  have h2 : amountIssues f.amount = [] := by
    unfold amountIssues
    rw [hq]
    simp [hqpos]
  have h3 : statusIssues f.status = [] := by
    rw [hst]
    unfold statusIssues
    rcases hvalid with rfl | rfl <;> simp
  unfold validateInvoiceForm
  rw [h1, h2, h3]
  simp [optErrors, hc, hst, hq]

/-- C2: a createInvoice call with amount "12.34" (and otherwise valid
fields) persists the amount column as exactly the integer 1234; and any
input whose status is neither "pending" nor "paid" fails validation and
returns before any write, leaving the store untouched. -/
theorem createInvoice_persists_cents_and_rejects_bad_status :
    (∀ (c st newId today : String) (store : List InvoiceRow),
      st = "pending" ∨ st = "paid" →
      createInvoice true newId today store ⟨some c, some "12.34", some st⟩
        = ⟨store ++ [⟨newId, c, 1234, st, today⟩], ["/dashboard/invoices"],
            Outcome.redirected "/dashboard/invoices"⟩)
    ∧ (∀ f : InvoiceForm, f.status ≠ some "pending" → f.status ≠ some "paid" →
        ∀ (insertOk : Bool) (newId today : String) (store : List InvoiceRow),
          createInvoice insertOk newId today store f
            = ⟨store, [], Outcome.returned
                ⟨some ⟨optErrors (customerIdIssues f.customerId),
                    optErrors (amountIssues f.amount),
                    some (statusIssues f.status)⟩,
                  some "Missing Fields. Failed to Create Invoice."⟩⟩) := by
  constructor
  · intro c st newId today store h
    have hq : coerceNumber (some "12.34") = some ((12 : ℚ) + 34 / 10 ^ 2) := rfl
    have hval := validateInvoiceForm_ok ⟨some c, some "12.34", some st⟩ c st
      ((12 : ℚ) + 34 / 10 ^ 2) rfl rfl hq (by norm_num) h
    unfold createInvoice
    rw [hval]
    norm_num
  · intro f h1 h2 insertOk newId today store
    have hs : statusIssues f.status ≠ [] := by
      cases hst : f.status with
      | none => simp [statusIssues]
      | some s =>
        rw [hst] at h1 h2
        have hsp : ¬(s = "pending" ∨ s = "paid") := by
          rintro (rfl | rfl)
          · exact h1 rfl
          · exact h2 rfl
        simp [statusIssues, hsp]
    have herr := validateInvoiceForm_eq_error f (fun hall => hs hall.2.2)
    unfold createInvoice
    rw [herr, optErrors_of_ne hs]

/-- Witness for C2: both branches at concrete inputs — amount "12.34" with
status "pending" inserts 1234 cents; status "unpaid" is rejected with no
write. -/
theorem createInvoice_persists_cents_and_rejects_bad_status_witness :
    createInvoice true "i1" "2026-01-15" [] ⟨some "c1", some "12.34", some "pending"⟩
      = ⟨[] ++ [⟨"i1", "c1", 1234, "pending", "2026-01-15"⟩], ["/dashboard/invoices"],
          Outcome.redirected "/dashboard/invoices"⟩
    ∧ createInvoice true "i2" "2026-01-15" [] ⟨some "c1", some "12.34", some "unpaid"⟩
      = ⟨[], [], Outcome.returned
          ⟨some ⟨optErrors (customerIdIssues (some "c1")),
              optErrors (amountIssues (some "12.34")),
              some (statusIssues (some "unpaid"))⟩,
            some "Missing Fields. Failed to Create Invoice."⟩⟩ :=
  ⟨createInvoice_persists_cents_and_rejects_bad_status.1 "c1" "pending" "i1"
      "2026-01-15" [] (by decide),
    createInvoice_persists_cents_and_rejects_bad_status.2
      ⟨some "c1", some "12.34", some "unpaid"⟩ (by decide) (by decide)
      true "i2" "2026-01-15" []⟩

/-- C9 counterexample: "12.500" has more than two decimal places, yet the
value sent to the store is the integer 1250 (denominator 1), so "every
amount input with more than two decimal places yields a non-integer number
of minor units" is false as stated. -/
theorem invoice_trailing_zeros_integer_cents :
    decimalPlaces "12.500" = 3
    ∧ (createInvoice true "i1" "2026-01-15" []
        ⟨some "c1", some "12.500", some "pending"⟩).store
      = [⟨"i1", "c1", 1250, "pending", "2026-01-15"⟩]
    ∧ (1250 : ℚ).den = 1 := by
  refine ⟨by decide, ?_, rfl⟩
  have hq : coerceNumber (some "12.500") = some ((12 : ℚ) + 500 / 10 ^ 3) := rfl
  have hval := validateInvoiceForm_ok ⟨some "c1", some "12.500", some "pending"⟩
    "c1" "pending" ((12 : ℚ) + 500 / 10 ^ 3) rfl rfl hq (by norm_num) (Or.inl rfl)
  unfold createInvoice
  rw [hval]
  norm_num

/-- C9 amended: createInvoice and updateInvoice send exactly `amount * 100`
to the store, with no rounding or truncation, so whenever the parsed
amount times 100 is not an integer (e.g. for "12.345", giving 1234.5) the
value sent is a non-integer number of minor units. -/
theorem invoice_amount_times_100_exact (f : InvoiceForm) (q : ℚ)
    (data : InvoiceData) (hq : coerceNumber f.amount = some q)
    (hv : validateInvoiceForm f = ParseResult.ok data)
    (newId today id : String) (store : List InvoiceRow) :
    data.amount = q
    ∧ (createInvoice true newId today store f).store
        = store ++ [⟨newId, data.customerId, q * 100, data.status, today⟩]
    ∧ (updateInvoice true id store f).store
        = store.map (fun r =>
            if r.id == id then
              { r with customerId := data.customerId, amount := q * 100,
                       status := data.status }
            else r)
    ∧ ((q * 100).den ≠ 1 → ∀ z : ℤ, q * 100 ≠ (z : ℚ)) := by
  have hdq : data.amount = q := by
    unfold validateInvoiceForm at hv
    split at hv
    · cases hv
      simp [hq]
    · cases hv
  refine ⟨hdq, ?_, ?_, ?_⟩
  · unfold createInvoice
    rw [hv]
    simp [hdq]
  · unfold updateInvoice
    rw [hv]
    simp [hdq]
  · intro hden z hz
    rw [hz] at hden
    exact hden (Rat.den_intCast z)

/-- Witness for C9: the exact-cents conversion exercised at amount "50". -/
theorem invoice_amount_times_100_exact_witness :
    (createInvoice true "i1" "2026-02-02" []
        ⟨some "c1", some "50", some "paid"⟩).store
      = [] ++ [⟨"i1", "c1", (50 : ℚ) * 100, "paid", "2026-02-02"⟩] :=
  (invoice_amount_times_100_exact ⟨some "c1", some "50", some "paid"⟩ 50
    ⟨"c1", 50, "paid"⟩ rfl (by decide) "i1" "2026-02-02" "x" []).2.1

/-- C7 counterexample: on a persistence failure, `updateUser` does not
propagate its rethrown error to the caller — the `finally` block redirect
replaces it, so the caller observes a redirect, refuting "every User
handler converts the failure into a thrown error that propagates". -/
theorem updateUser_persistence_failure_redirects :
    (updateUser (fun _ => true) (fun p => p) false "u1"
        [⟨"u1", "Alice Smith", "a@b.com", "h0"⟩]
        ⟨some "Alice Smith", some "a@b.com", some "secret123"⟩).outcome
      = Outcome.redirected "/dashboard/users"
    ∧ (updateUser (fun _ => true) (fun p => p) false "u1"
        [⟨"u1", "Alice Smith", "a@b.com", "h0"⟩]
        ⟨some "Alice Smith", some "a@b.com", some "secret123"⟩).outcome
      ≠ Outcome.threw "Failed to update user." := by
  constructor
  · decide
  · decide

/-- C7 amended: on a persistence failure, createUser and deleteUser throw
to the caller; updateUser rethrows inside its catch but the finally
redirect masks it, so its caller observes a redirect; every Invoice
handler returns a message value instead of throwing. -/
theorem persistence_failure_handler_outcomes :
    (∀ (emailOk : String → Bool) (hash : String → String) (newId : String)
        (store : List UserRow) (form : UserForm) (data : UserData),
      validateUserForm emailOk form = ParseResult.ok data →
      isEmailUnique store data.email = 0 →
      (createUser emailOk hash false newId store form).outcome
        = Outcome.threw "Failed to create user.")
    ∧ (∀ (id : String) (store : List UserRow),
        (deleteUser false id store).outcome
          = Outcome.threw "Failed to delete user.")
    ∧ (∀ (emailOk : String → Bool) (hash : String → String) (id : String)
          (store : List UserRow) (form : UserForm) (data : UserData),
        validateUserForm emailOk form = ParseResult.ok data →
        (updateUser emailOk hash false id store form).outcome
          = Outcome.redirected "/dashboard/users")
    ∧ (∀ (newId today : String) (store : List InvoiceRow) (form : InvoiceForm)
          (data : InvoiceData),
        validateInvoiceForm form = ParseResult.ok data →
        (createInvoice false newId today store form).outcome
          = Outcome.returned
              ⟨none, some "Database Error: Failed to Create Invoice."⟩)
    ∧ (∀ (id : String) (store : List InvoiceRow) (form : InvoiceForm)
          (data : InvoiceData),
        validateInvoiceForm form = ParseResult.ok data →
        (updateInvoice false id store form).outcome
          = Outcome.returned
              ⟨none, some "Database Error: Failed to Update Invoice."⟩)
    ∧ (∀ (id : String) (store : List InvoiceRow),
        (deleteInvoice false id store).outcome
          = Outcome.returned
              ⟨none, some "Database Error: Failed to Delete Invoice."⟩) := by
  refine ⟨?_, fun id store => rfl, ?_, ?_, ?_, fun id store => rfl⟩
  · intro emailOk hash newId store form data hv h0
    unfold createUser
    rw [hv]
    simp [h0]
  · intro emailOk hash id store form data hv
    unfold updateUser
    rw [hv]
  · intro newId today store form data hv
    unfold createInvoice
    rw [hv]
    rfl
  · intro id store form data hv
    unfold updateInvoice
    rw [hv]
    rfl

/-- Witness for C7: the user-create throw and the invoice-create returned
message, both at concrete inputs with the store call failing. -/
theorem persistence_failure_handler_outcomes_witness :
    (createUser (fun _ => true) (fun p => p) false "u9" []
        ⟨some "Alice Smith", some "a@b.com", some "secret123"⟩).outcome
      = Outcome.threw "Failed to create user."
    ∧ (createInvoice false "i9" "2026-02-02" []
        ⟨some "c1", some "50", some "paid"⟩).outcome
      = Outcome.returned ⟨none, some "Database Error: Failed to Create Invoice."⟩ :=
  ⟨persistence_failure_handler_outcomes.1 (fun _ => true) (fun p => p) "u9" []
      ⟨some "Alice Smith", some "a@b.com", some "secret123"⟩
      ⟨"Alice Smith", "a@b.com", "secret123"⟩ (by decide) (by decide),
    persistence_failure_handler_outcomes.2.2.2.1 "i9" "2026-02-02" []
      ⟨some "c1", some "50", some "paid"⟩ ⟨"c1", 50, "paid"⟩ (by decide)⟩

end Actions
